import Mathlib

/-!
Shallow embedding of the error taxonomy and redirect signaling of
`iotdb-client/client-py/iotdb/utils/exception.py`.

Python exceptions store their constructor arguments in the `args` tuple, and
`str(e)` is `""` when the tuple is empty, `str(a)` for a single argument `a`,
and the `repr` of the whole tuple otherwise.  We model the args tuple of each
exception class as the list of values passed to `super().__init__(...)`, and
the optional parameters (default `None`) as `Option` values.  The connection
exception never inspects its inputs, so its embedding is polymorphic in the
value type.
-/

namespace IoTDB

/-- Modelled from the spec: an Endpoint is "an address descriptor (host + port)
identifying a cluster node".  The class `TEndPoint` itself lives in the
generated thrift module `iotdb.thrift.common.ttypes`, which is outside this
core; the core only uses its identity as a distinct runtime type in an
`isinstance` test. -/
structure TEndPoint where
  ip : String
  port : Int
  deriving DecidableEq, Repr

/-- Modelled from the spec: the "StatusCode+Message pair" is "a numeric or
symbolic status code and a human-readable message" received from a cluster
node.  The class `TSStatus` lives in the generated thrift module; the core
reads only its `code` and `message` fields. -/
structure TSStatus where
  code : Int
  message : String
  deriving DecidableEq, Repr

/-- Args tuple built by `IoTDBConnectionException.__init__(reason, cause,
message)`: `if reason is not None: super().__init__(reason)` /
`elif cause is not None: super().__init__(cause)` /
`elif message is not None and cause is not None: super().__init__(message, cause)` /
`else: super().__init__()`.  The elif chain is mirrored branch for branch,
including the third test which re-examines `cause`. -/
def IoTDBConnectionException.init {α : Type} (reason cause message : Option α) :
    List α :=
  match reason with
  | some r => [r]
  | none =>
    match cause with
    | some c => [c]
    | none =>
      match message, cause with
      | some m, some c => [m, c]
      | _, _ => []

/-- Args tuple built by `StatementExecutionException.__init__(status, message)`:
a present `status` yields the single argument `f"{status.code}: {status.message}"`,
else a present `message` is passed through, else no argument at all. -/
def StatementExecutionException.init (status : Option TSStatus)
    (message : Option String) : List String :=
  match status with
  | some s => [toString s.code ++ ": " ++ s.message]
  | none =>
    match message with
    | some m => [m]
    | none => []

/-- A Python value handed to `RedirectException.__init__` as `redirect_info`:
either a `TEndPoint` instance, or any other object — a dict from device
identifier to endpoint, `None`, or something else entirely — mirroring the
fact that the constructor dispatches only on `isinstance(redirect_info,
TEndPoint)`. -/
inductive RedirectInfo where
  | endpoint (e : TEndPoint)
  | mapping (m : List (String × TEndPoint))
  | pynone
  | other (s : String)
  deriving DecidableEq, Repr

/-- The `isinstance(redirect_info, TEndPoint)` test. -/
def RedirectInfo.isTEndPoint : RedirectInfo → Bool
  | .endpoint _ => true
  | _ => false

/-- State of a constructed `RedirectException`: the Python object ends up with
either a `redirect_node` attribute or a `device_to_endpoint` attribute;
`none` models the attribute being absent on the instance. -/
structure RedirectException where
  redirect_node : Option TEndPoint
  device_to_endpoint : Option RedirectInfo
  deriving DecidableEq, Repr

/-- Constructor `RedirectException.__init__(redirect_info)`: if the argument is
a `TEndPoint` instance it becomes `self.redirect_node`, otherwise it is stored
unmodified as `self.device_to_endpoint`. -/
def RedirectException.init (redirect_info : RedirectInfo) : RedirectException :=
  match redirect_info with
  | .endpoint e => ⟨some e, none⟩
  | info => ⟨none, some info⟩

/-- Python `str` of an exception whose args tuple is `args`: the empty string
when there are no arguments, the `str` of the single argument when there is
exactly one, and the `repr` of the args tuple otherwise.  `strFn` and `reprFn`
model Python `str` and `repr` on the argument values. -/
def excStr {α : Type} (strFn reprFn : α → String) : List α → String
  | [] => ""
  | [a] => strFn a
  | args => "(" ++ String.intercalate ", " (args.map reprFn) ++ ")"

/-- C1: a Connection Failure Signal constructed with `reason=None`,
`cause=None` and a non-null `message` carries no descriptive payload at all:
the message argument is dropped, the args tuple is empty, and the descriptive
text is the empty string. -/
theorem connection_message_only_dropped {α : Type} (strFn reprFn : α → String)
    (m : α) :
    IoTDBConnectionException.init none none (some m) = ([] : List α) ∧
      excStr strFn reprFn (IoTDBConnectionException.init none none (some m))
        = "" :=
  ⟨rfl, rfl⟩

/-- C4: for every non-null `reason`, the Connection Failure Signal's payload is
exactly `[reason]` and its descriptive text is the string form of `reason`,
whatever `cause` and `message` are. -/
theorem connection_reason_wins {α : Type} (strFn reprFn : α → String) (r : α)
    (cause message : Option α) :
    IoTDBConnectionException.init (some r) cause message = [r] ∧
      excStr strFn reprFn (IoTDBConnectionException.init (some r) cause message)
        = strFn r :=
  ⟨rfl, rfl⟩

/-- C5: with `reason=None` and a non-null `cause`, the Connection Failure
Signal's payload is exactly `[cause]` and its descriptive text is the string
form of `cause`; the `message` argument is not incorporated. -/
theorem connection_cause_used {α : Type} (strFn reprFn : α → String) (c : α)
    (message : Option α) :
    IoTDBConnectionException.init none (some c) message = [c] ∧
      excStr strFn reprFn (IoTDBConnectionException.init none (some c) message)
        = strFn c :=
  ⟨rfl, rfl⟩

/-- C9: the two-argument branch of `IoTDBConnectionException.__init__` is
unreachable: for every combination of `reason`, `cause` and `message` the
payload is independent of `message` and is exactly `[reason]`, `[cause]`, or
empty — so the `message` argument never contributes to any payload. -/
theorem connection_two_arg_branch_unreachable {α : Type}
    (reason cause message : Option α) :
    IoTDBConnectionException.init reason cause message
        = IoTDBConnectionException.init reason cause none ∧
      ((∃ r, reason = some r ∧
          IoTDBConnectionException.init reason cause message = [r]) ∨
        (reason = none ∧ ∃ c, cause = some c ∧
          IoTDBConnectionException.init reason cause message = [c]) ∨
        (reason = none ∧ cause = none ∧
          IoTDBConnectionException.init reason cause message = [])) := by
  cases reason with
  | some r => exact ⟨rfl, Or.inl ⟨r, rfl, rfl⟩⟩
  | none =>
    cases cause with
    | some c => exact ⟨rfl, Or.inr (Or.inl ⟨rfl, c, rfl, rfl⟩)⟩
    | none =>
      cases message with
      | some m => exact ⟨rfl, Or.inr (Or.inr ⟨rfl, rfl, rfl⟩)⟩
      | none => exact ⟨rfl, Or.inr (Or.inr ⟨rfl, rfl, rfl⟩)⟩

/-- C3: a Statement Execution Failure Signal built from a non-null status pair
has payload exactly the single string `"{code}: {message}"` — code and message
joined by colon-space — and the separate `message` argument is ignored, for
every value of that argument. -/
theorem statement_status_format (s : TSStatus) (message : Option String) :
    StatementExecutionException.init (some s) message
        = [toString s.code ++ ": " ++ s.message] ∧
      excStr id id (StatementExecutionException.init (some s) message)
        = toString s.code ++ ": " ++ s.message :=
  ⟨rfl, rfl⟩

/-- C6: a Statement Execution Failure Signal built with `status=None` and a
non-null `message` has descriptive text equal to `message` exactly, and when
both `status` and `message` are `None` it carries no descriptive payload. -/
theorem statement_message_fallback (m : String) :
    StatementExecutionException.init none (some m) = [m] ∧
      excStr id id (StatementExecutionException.init none (some m)) = m ∧
      StatementExecutionException.init none none = [] :=
  ⟨rfl, rfl, rfl⟩

/-- C2: every constructed Redirect Signal carries exactly one of the two
payload fields — either the single redirect node is set and the mapping field
is absent, or the mapping field is set and the redirect node is absent. -/
theorem redirect_exactly_one (info : RedirectInfo) :
    ((RedirectException.init info).redirect_node.isSome = true ∧
        (RedirectException.init info).device_to_endpoint = none) ∨
      ((RedirectException.init info).redirect_node = none ∧
        (RedirectException.init info).device_to_endpoint.isSome = true) := by
  cases info with
  | endpoint e => exact Or.inl ⟨rfl, rfl⟩
  | mapping m => exact Or.inr ⟨rfl, rfl⟩
  | pynone => exact Or.inr ⟨rfl, rfl⟩
  | other s => exact Or.inr ⟨rfl, rfl⟩

/-- C7: a Redirect Signal built from an Endpoint value exposes that endpoint as
the single redirect target and exposes no device-to-endpoint mapping. -/
theorem redirect_endpoint_single (e : TEndPoint) :
    (RedirectException.init (.endpoint e)).redirect_node = some e ∧
      (RedirectException.init (.endpoint e)).device_to_endpoint = none :=
  ⟨rfl, rfl⟩

/-- C8: a Redirect Signal built from a device-to-endpoint mapping exposes that
mapping — with exactly the same entries — as the mapping field and exposes no
single redirect target. -/
theorem redirect_mapping_stored (m : List (String × TEndPoint)) :
    (RedirectException.init (.mapping m)).device_to_endpoint
        = some (.mapping m) ∧
      (RedirectException.init (.mapping m)).redirect_node = none :=
  ⟨rfl, rfl⟩

/-- C10: every input that is not a `TEndPoint` instance — including `None` —
is stored unmodified and unvalidated as the device-to-endpoint field, and the
single-redirect-target field is never populated for such inputs. -/
theorem redirect_non_endpoint_stored (info : RedirectInfo)
    (h : info.isTEndPoint = false) :
    (RedirectException.init info).device_to_endpoint = some info ∧
      (RedirectException.init info).redirect_node = none := by
  cases info with
  | endpoint e => exact absurd h (by simp [RedirectInfo.isTEndPoint])
  | mapping m => exact ⟨rfl, rfl⟩
  | pynone => exact ⟨rfl, rfl⟩
  | other s => exact ⟨rfl, rfl⟩

/-- Witness for C10 at the concrete input `None`. -/
theorem redirect_non_endpoint_stored_witness :
    RedirectInfo.isTEndPoint .pynone = false ∧
      (RedirectException.init .pynone).device_to_endpoint = some .pynone ∧
      (RedirectException.init .pynone).redirect_node = none :=
  ⟨rfl, (redirect_non_endpoint_stored .pynone rfl).1,
    (redirect_non_endpoint_stored .pynone rfl).2⟩

end IoTDB
